import Mathlib

/-!
Shallow embedding of `anonymize_survival.py`, a single-file pipeline that
computes relative survival days and a censor flag per patient from split
year/month/day fields and a vital-status column.

Modelling conventions:
* A table is a `List Row`; every pandas whole-column operation becomes a
  `List.map` / `List.filter` / `List.filterMap` over the rows, which is
  faithful because the pandas operations used by the script (`apply(axis=1)`,
  `dropna`, boolean `.loc`, column arithmetic, `replace`, `to_csv`) are all
  row-wise and order-preserving.
* A calendar date is a `Date` triple of naturals; `Date.ord` is the proleptic
  Gregorian ordinal (days since 0000-12-31, as in Python
  `datetime.date.toordinal`), so pandas timestamp subtraction `.dt.days`
  becomes subtraction of ordinals in `Int`.
* `pd.to_datetime(s, format="%Y-%m-%d", errors="coerce")` becomes
  `to_datetime_coerce : String -> Option Date`: `none` models `NaT`.  The
  parse demands three dash-separated all-digit fragments (4-digit year,
  1-2 digit month/day, mirroring the strptime fragment patterns), a valid
  calendar date, and a date within the pandas `Timestamp` range
  (1677-09-22 .. 2262-04-11); anything else coerces to `none`.
* `sys.exit(1)` branches of `main` become constructors of `RunResult`.
-/

namespace AnonymizeSurvival

/-- A calendar date as the raw year/month/day triple. -/
structure Date where
  year : Nat
  month : Nat
  day : Nat
deriving DecidableEq, Repr

/-- Gregorian leap-year test. -/
def isLeap (y : Nat) : Bool :=
  (y % 4 == 0 && y % 100 != 0) || y % 400 == 0

/-- Number of days in month `m` of year `y` (months are 1-based). -/
def daysInMonth (y m : Nat) : Nat :=
  if m == 2 then (if isLeap y then 29 else 28)
  else if m == 4 || m == 6 || m == 9 || m == 11 then 30
  else 31

/-- Cumulative days before month `m` in a non-leap year. -/
def daysBeforeMonthCommon (m : Nat) : Nat :=
  match m with
  | 1 => 0 | 2 => 31 | 3 => 59 | 4 => 90 | 5 => 120 | 6 => 151
  | 7 => 181 | 8 => 212 | 9 => 243 | 10 => 273 | 11 => 304 | 12 => 334
  | _ => 0

/-- Cumulative days before month `m` in year `y`. -/
def daysBeforeMonth (y m : Nat) : Nat :=
  daysBeforeMonthCommon m + (if 3 ≤ m ∧ isLeap y = true then 1 else 0)

/-- Proleptic Gregorian ordinal of the date `y-m-d`, as in Python
`date(y, m, d).toordinal()`: day 1 is 0001-01-01. -/
def Date.ord (dt : Date) : Nat :=
  let p := dt.year - 1
  365 * p + p / 4 - p / 100 + p / 400 + daysBeforeMonth dt.year dt.month + dt.day

/-- Validity of a date triple as a calendar date. -/
def validDate (dt : Date) : Bool :=
  1 ≤ dt.year && 1 ≤ dt.month && dt.month ≤ 12 &&
    1 ≤ dt.day && dt.day ≤ daysInMonth dt.year dt.month

/-- Split a character list on the dash character, like `String.splitOn "-"`. -/
def splitOnDash (cs : List Char) : List (List Char) :=
  match cs with
  | [] => [[]]
  | c :: rest =>
    if c = '-' then [] :: splitOnDash rest
    else
      match splitOnDash rest with
      | [] => [[c]]
      | g :: gs => (c :: g) :: gs

/-- Read a nonempty all-digit character list as a natural number. -/
def digitsToNat (cs : List Char) : Option Nat :=
  if cs ≠ [] ∧ cs.all Char.isDigit then
    some (cs.foldl (fun acc c => 10 * acc + (c.toNat - 48)) 0)
  else none

/-- Ordinal of the earliest calendar day inside the pandas `Timestamp` range. -/
def tsMinOrd : Nat := Date.ord ⟨1677, 9, 22⟩

/-- Ordinal of the latest calendar day inside the pandas `Timestamp` range. -/
def tsMaxOrd : Nat := Date.ord ⟨2262, 4, 11⟩

/-- Model of `pd.to_datetime(s, format="%Y-%m-%d", errors="coerce")` applied to
one cell: `none` is the `NaT` ("unparseable") marker. -/
def to_datetime_coerce (s : String) : Option Date :=
  match splitOnDash s.toList with
  | [ys, ms, ds] =>
    match digitsToNat ys, digitsToNat ms, digitsToNat ds with
    | some y, some m, some d =>
      if ys.length = 4 ∧ ms.length ≤ 2 ∧ ds.length ≤ 2 ∧
          validDate ⟨y, m, d⟩ = true ∧
          tsMinOrd ≤ Date.ord ⟨y, m, d⟩ ∧ Date.ord ⟨y, m, d⟩ ≤ tsMaxOrd
      then some ⟨y, m, d⟩ else none
    | _, _, _ => none
  | _ => none

/-- One input row, restricted to the columns the pipeline consumes.  The raw
year/month/day and vital-status cells are kept as the strings they print as
inside the f-string of `get_dt_diagnosis` / `get_dt_last_contact`. -/
structure Row where
  studyid : String
  dodY : String
  dodM : String
  dodD : String
  dolcY : String
  dolcM : String
  dolcD : String
  vitalStatus : String
deriving DecidableEq, Repr

/-- `get_dt_diagnosis`: format the three diagnosis fields as `"{y}-{m}-{d}"`. -/
def get_dt_diagnosis (r : Row) : String :=
  r.dodY ++ "-" ++ r.dodM ++ "-" ++ r.dodD

/-- `get_dt_last_contact`: format the three last-contact fields as
`"{y}-{m}-{d}"`. -/
def get_dt_last_contact (r : Row) : String :=
  r.dolcY ++ "-" ++ r.dolcM ++ "-" ++ r.dolcD

/-- The `date_of_diagnosis_yyyymmdd` column cell for a row. -/
def dtDiagnosis (r : Row) : Option Date :=
  to_datetime_coerce (get_dt_diagnosis r)

/-- The `date_of_last_contact_yyyymmdd` column cell for a row. -/
def dtLastContact (r : Row) : Option Date :=
  to_datetime_coerce (get_dt_last_contact r)

/-- Sentinel configuration: `--vital-status-value-alive` and
`--vital-status-value-deceased`. -/
structure Config where
  alive : String
  deceased : String
deriving DecidableEq, Repr

/-- The default sentinels of the CLI. -/
def defaultConfig : Config := ⟨"Alive", "Dead"⟩

/-- `END_DATE = pd.to_datetime("2020-12-31")`, the fixed study end date. -/
def END_DATE : Date := ⟨2020, 12, 31⟩

/-- A row that survived the `dropna` filter, together with its two parsed
date columns. -/
structure ParsedRow where
  row : Row
  dtDiag : Date
  dtLC : Date
deriving DecidableEq, Repr

/-- The `dropna(subset=[both date columns])` stage: keep exactly the rows on
which both datetime coercions succeeded. -/
def dropUnparseable (rows : List Row) : List ParsedRow :=
  rows.filterMap fun r =>
    match dtDiagnosis r, dtLastContact r with
    | some a, some b => some ⟨r, a, b⟩
    | _, _ => none

/-- A row after the study-end censoring adjuster: carries the derived
`vital_status_at_study_end` and `date_of_last_contact_clipped_yyyymmdd`
columns. -/
structure AdjRow where
  row : Row
  dtDiag : Date
  dtLC : Date
  vitalEnd : String
  dtLCClipped : Date
deriving DecidableEq, Repr

/-- The per-row censoring adjuster: reclassify the vital status to the alive
sentinel when the raw status equals the deceased sentinel and the last contact
is strictly after `END_DATE`; clip the last contact to `END_DATE`
unconditionally. -/
def adjustRow (cfg : Config) (p : ParsedRow) : AdjRow :=
  { row := p.row
    dtDiag := p.dtDiag
    dtLC := p.dtLC
    vitalEnd :=
      if p.row.vitalStatus = cfg.deceased ∧ END_DATE.ord < p.dtLC.ord
      then cfg.alive else p.row.vitalStatus
    dtLCClipped :=
      if p.dtLC.ord ≤ END_DATE.ord then p.dtLC else END_DATE }

/-- The rows retained after both filters (`dropna`, then the
`diagnosed_prior_to_study_end` mask), each with its derived columns. -/
def retainedRows (cfg : Config) (rows : List Row) : List AdjRow :=
  ((dropUnparseable rows).map (adjustRow cfg)).filter
    fun a => a.dtDiag.ord ≤ END_DATE.ord

/-- A cell of the `censorA.0yes.1no` column: pandas `replace` leaves values
matching neither sentinel unchanged, so the column mixes the mapped numbers
with passed-through raw values. -/
inductive CensorVal where
  | num (n : Nat)
  | raw (s : String)
deriving DecidableEq, Repr

/-- The `replace({alive: 0, deceased: 1})` mapping on one cell. -/
def censorOf (cfg : Config) (v : String) : CensorVal :=
  if v = cfg.alive then .num 0
  else if v = cfg.deceased then .num 1
  else .raw v

/-- One row of the output CSV: `[col_index, "censorA.0yes.1no", "survivalA"]`. -/
structure OutRow where
  studyid : String
  censor : CensorVal
  survivalDays : Int
deriving DecidableEq, Repr

/-- Days of survival of a retained row: clipped last contact minus diagnosis. -/
def survivalDaysOf (a : AdjRow) : Int :=
  (a.dtLCClipped.ord : Int) - (a.dtDiag.ord : Int)

/-- Project a retained row to its output record. -/
def mkOutRow (cfg : Config) (a : AdjRow) : OutRow :=
  { studyid := a.row.studyid
    censor := censorOf cfg a.vitalEnd
    survivalDays := survivalDaysOf a }

/-- The whole transformation pipeline of `main` after validation: both
filters, the censoring adjuster, the survival and censor columns, and the
final three-column projection, in input order. -/
def processRows (cfg : Config) (rows : List Row) : List OutRow :=
  (retainedRows cfg rows).map (mkOutRow cfg)

/-- Result of a run of `main`: the fatal `sys.exit(1)` branches reachable when
all expected columns are present, or success carrying the
deceased-sentinel-absent warning flag and the output rows. -/
inductive RunResult where
  | fatalOutpathExists
  | fatalAliveAbsent
  | success (warnedNoDeceased : Bool) (out : List OutRow)
deriving DecidableEq, Repr

/-- Model of `main` (columns assumed present): abort if the output path
exists, abort if the alive sentinel never occurs in the vital-status column,
warn (only) if the deceased sentinel never occurs, then run the pipeline. -/
def runMain (outpathExists : Bool) (cfg : Config) (rows : List Row) :
    RunResult :=
  if outpathExists then .fatalOutpathExists
  else if rows.all (fun r => r.vitalStatus ≠ cfg.alive) then .fatalAliveAbsent
  else
    .success (rows.all fun r => r.vitalStatus ≠ cfg.deceased)
      (processRows cfg rows)

/-- Scenario A input row: diagnosed 2015-01-01, last contact 2019-06-15,
status Alive. -/
def rowA : Row := ⟨"A1", "2015", "01", "01", "2019", "06", "15", "Alive"⟩

/-- Scenario B input row: diagnosed 2015-01-01, last contact 2021-03-01,
status Dead. -/
def rowB : Row := ⟨"B1", "2015", "01", "01", "2021", "03", "01", "Dead"⟩

/-- A malformed row: diagnosed 2020-01-01 but last contact 2019-01-01. -/
def rowNeg : Row := ⟨"N1", "2020", "01", "01", "2019", "01", "01", "Alive"⟩

/-- Scenario D input row: diagnosis month field is the invalid value 13. -/
def row13 : Row := ⟨"D1", "2015", "13", "01", "2019", "06", "15", "Alive"⟩

/-- A row whose vital status matches neither sentinel. -/
def rowU : Row := ⟨"U1", "2015", "01", "01", "2019", "06", "15", "Unknown"⟩

/-- The adjusted form of `rowA` produced by the pipeline. -/
def adjA : AdjRow := ⟨rowA, ⟨2015, 1, 1⟩, ⟨2019, 6, 15⟩, "Alive", ⟨2019, 6, 15⟩⟩

/-- The adjusted form of `rowB` produced by the pipeline. -/
def adjB : AdjRow := ⟨rowB, ⟨2015, 1, 1⟩, ⟨2021, 3, 1⟩, "Alive", ⟨2020, 12, 31⟩⟩

/-- The adjusted form of `rowU` produced by the pipeline. -/
def adjU : AdjRow :=
  ⟨rowU, ⟨2015, 1, 1⟩, ⟨2019, 6, 15⟩, "Unknown", ⟨2019, 6, 15⟩⟩

/-- Every row surviving `dropUnparseable` carries exactly the parses of its
own two date strings. -/
theorem mem_dropUnparseable {rows : List Row} {p : ParsedRow}
    (hp : p ∈ dropUnparseable rows) :
    dtDiagnosis p.row = some p.dtDiag ∧ dtLastContact p.row = some p.dtLC := by
  obtain ⟨r, -, hr⟩ := List.mem_filterMap.mp hp
  cases hd : dtDiagnosis r with
  | none => simp [hd] at hr
  | some a =>
    cases hl : dtLastContact r with
    | none => simp [hd, hl] at hr
    | some b =>
      simp only [hd, hl, Option.some.injEq] at hr
      subst hr
      exact ⟨hd, hl⟩

/-- Every retained row is the adjusted form of a row that survived the
`dropna` stage. -/
theorem mem_retainedRows {cfg : Config} {rows : List Row} {a : AdjRow}
    (ha : a ∈ retainedRows cfg rows) :
    ∃ p, p ∈ dropUnparseable rows ∧ a = adjustRow cfg p := by
  obtain ⟨p, hp, hpa⟩ := List.mem_map.mp (List.mem_filter.mp ha).1
  exact ⟨p, hp, hpa.symm⟩

/-- The ids of the rows surviving `dropUnparseable` form a subsequence of the
input ids. -/
theorem dropUnparseable_ids_sublist (rows : List Row) :
    ((dropUnparseable rows).map fun p => p.row.studyid).Sublist
      (rows.map Row.studyid) := by
  induction rows with
  | nil => simp [dropUnparseable]
  | cons r rs ih =>
    simp only [dropUnparseable, List.filterMap_cons, List.map_cons] at *
    cases hd : dtDiagnosis r with
    | none => simpa [hd] using ih.cons r.studyid
    | some a =>
      cases hl : dtLastContact r with
      | none => simpa [hd, hl] using ih.cons r.studyid
      | some b => simpa [hd, hl] using ih.cons₂ r.studyid

/-- Claim C1, counterexample: on the Scenario A row (diagnosed 2015-01-01,
last contact 2019-06-15, status Alive) the pipeline does not output
survival_days = 1627; the actual day difference is 1626. -/
theorem scenarioA_survival_not_1627 :
    ¬ (processRows defaultConfig [rowA]).map OutRow.survivalDays = [1627] := by
  decide

/-- Claim C1, amended: the Scenario A row is retained and its output record
has censor = 0 and survival_days = 1626, the clipped last-contact date minus
the diagnosis date in whole days. -/
theorem scenarioA_output :
    processRows defaultConfig [rowA] =
      [{ studyid := "A1", censor := CensorVal.num 0, survivalDays := 1626 }] := by
  decide

/-- Claim C2: for every retained row, vital_status_at_study_end is the alive
sentinel exactly when the raw status is the deceased sentinel and the
unclipped last contact is strictly after the study end date; in every other
case it is the raw status unchanged, including values outside the two
sentinels. -/
theorem vital_status_at_study_end_correct (cfg : Config) (rows : List Row)
    (a : AdjRow) (ha : a ∈ retainedRows cfg rows) :
    (a.row.vitalStatus = cfg.deceased ∧ END_DATE.ord < a.dtLC.ord →
      a.vitalEnd = cfg.alive) ∧
    (¬ (a.row.vitalStatus = cfg.deceased ∧ END_DATE.ord < a.dtLC.ord) →
      a.vitalEnd = a.row.vitalStatus) := by
  obtain ⟨p, -, rfl⟩ := mem_retainedRows ha
  dsimp only [adjustRow]
  constructor
  · intro h
    rw [if_pos h]
  · intro h
    rw [if_neg h]

/-- Claim C2, witness at the Scenario B row. -/
theorem vital_status_at_study_end_correct_witness :
    (adjB.row.vitalStatus = defaultConfig.deceased ∧
        END_DATE.ord < adjB.dtLC.ord → adjB.vitalEnd = defaultConfig.alive) ∧
    (¬ (adjB.row.vitalStatus = defaultConfig.deceased ∧
        END_DATE.ord < adjB.dtLC.ord) → adjB.vitalEnd = adjB.row.vitalStatus) :=
  vital_status_at_study_end_correct defaultConfig [rowB] adjB (by decide)

/-- Claim C3: the Scenario B row (diagnosed 2015-01-01, last contact
2021-03-01, status Dead) is reclassified to Alive at study end, its last
contact is clipped to 2020-12-31, and its output record has censor = 0 and
survival_days = 2191. -/
theorem scenarioB_output :
    retainedRows defaultConfig [rowB] = [adjB] ∧
    adjB.vitalEnd = defaultConfig.alive ∧
    adjB.dtLCClipped = END_DATE ∧
    processRows defaultConfig [rowB] =
      [{ studyid := "B1", censor := CensorVal.num 0, survivalDays := 2191 }] := by
  refine ⟨by decide, by decide, by decide, by decide⟩

/-- Claim C4: for every retained row the clipped last contact is the minimum
of the last contact and the study end date, hence never after the study end,
and it equals the last contact whenever that is not after the study end. -/
theorem clipping_correct (cfg : Config) (rows : List Row) (a : AdjRow)
    (ha : a ∈ retainedRows cfg rows) :
    a.dtLCClipped.ord = min a.dtLC.ord END_DATE.ord ∧
    a.dtLCClipped.ord ≤ END_DATE.ord ∧
    (a.dtLC.ord ≤ END_DATE.ord → a.dtLCClipped = a.dtLC) := by
  obtain ⟨p, -, rfl⟩ := mem_retainedRows ha
  dsimp only [adjustRow]
  split_ifs with h
  · exact ⟨by omega, by omega, fun _ => rfl⟩
  · exact ⟨by omega, by omega, fun hle => absurd hle h⟩

/-- Claim C4, witness at the Scenario A row. -/
theorem clipping_correct_witness :
    adjA.dtLCClipped.ord = min adjA.dtLC.ord END_DATE.ord ∧
    adjA.dtLCClipped.ord ≤ END_DATE.ord ∧
    (adjA.dtLC.ord ≤ END_DATE.ord → adjA.dtLCClipped = adjA.dtLC) :=
  clipping_correct defaultConfig [rowA] adjA (by decide)

/-- Claim C5: for every retained row whose diagnosis date is not after its
clipped last contact, survival_days is non-negative; and no check enforces
diagnosis before last contact: a retained row diagnosed 2020-01-01 with last
contact 2019-01-01 yields survival_days = -365 and is kept in the output. -/
theorem survival_nonneg_and_not_enforced :
    (∀ (cfg : Config) (rows : List Row) (a : AdjRow),
      a ∈ retainedRows cfg rows → a.dtDiag.ord ≤ a.dtLCClipped.ord →
        0 ≤ survivalDaysOf a) ∧
    processRows defaultConfig [rowNeg] =
      [{ studyid := "N1", censor := CensorVal.num 0, survivalDays := -365 }] := by
  constructor
  · intro cfg rows a _ hle
    simp only [survivalDaysOf]
    omega
  · decide

/-- Claim C5, witness at the Scenario A row. -/
theorem survival_nonneg_and_not_enforced_witness :
    0 ≤ survivalDaysOf adjA :=
  survival_nonneg_and_not_enforced.1 defaultConfig [rowA] adjA (by decide)
    (by decide)

/-- Claim C6: the date reconstruction formats the raw fields as
year-month-day; every successfully parsed date is a valid calendar date;
every row surviving the dropna stage parsed successfully on both dates; a row
with an unparseable date never reaches the later stages, and in particular
the invalid diagnosis month 13 coerces to the unparseable marker and the row
vanishes from the output, with no exception possible (the parse is total). -/
theorem unparseable_dates_safe :
    (∀ (rows : List Row) (p : ParsedRow), p ∈ dropUnparseable rows →
        dtDiagnosis p.row = some p.dtDiag ∧ dtLastContact p.row = some p.dtLC) ∧
    (∀ r : Row,
        get_dt_diagnosis r = r.dodY ++ "-" ++ r.dodM ++ "-" ++ r.dodD ∧
        get_dt_last_contact r = r.dolcY ++ "-" ++ r.dolcM ++ "-" ++ r.dolcD) ∧
    (∀ (s : String) (dt : Date),
        to_datetime_coerce s = some dt → validDate dt = true) ∧
    (∀ (rows : List Row) (r : Row),
        dtDiagnosis r = none ∨ dtLastContact r = none →
        ∀ p ∈ dropUnparseable rows, p.row ≠ r) ∧
    dtDiagnosis row13 = none ∧ processRows defaultConfig [row13] = [] := by
  refine ⟨fun rows p hp => mem_dropUnparseable hp, fun r => ⟨rfl, rfl⟩,
    ?_, ?_, by decide, by decide⟩
  · intro s dt h
    unfold to_datetime_coerce at h
    split at h
    · split at h
      · split at h
        · rename_i hcond
          obtain ⟨-, -, -, hv, -, -⟩ := hcond
          cases h
          exact hv
        · exact absurd h (by simp)
      · exact absurd h (by simp)
    · exact absurd h (by simp)
  · intro rows r hor p hp heq
    obtain ⟨h1, h2⟩ := mem_dropUnparseable hp
    rw [heq] at h1 h2
    rcases hor with hbad | hbad
    · rw [hbad] at h1
      exact Option.noConfusion h1
    · rw [hbad] at h2
      exact Option.noConfusion h2

/-- Claim C6, witness: the Scenario A row survives the dropna stage and its
stored dates are exactly the parses of its date strings. -/
theorem unparseable_dates_safe_witness :
    dtDiagnosis (ParsedRow.row ⟨rowA, ⟨2015, 1, 1⟩, ⟨2019, 6, 15⟩⟩) =
      some (ParsedRow.dtDiag ⟨rowA, ⟨2015, 1, 1⟩, ⟨2019, 6, 15⟩⟩) ∧
    dtLastContact (ParsedRow.row ⟨rowA, ⟨2015, 1, 1⟩, ⟨2019, 6, 15⟩⟩) =
      some (ParsedRow.dtLC ⟨rowA, ⟨2015, 1, 1⟩, ⟨2019, 6, 15⟩⟩) :=
  unparseable_dates_safe.1 [rowA] ⟨rowA, ⟨2015, 1, 1⟩, ⟨2019, 6, 15⟩⟩
    (by decide)

/-- Claim C7: with the output path free and all columns present, if the alive
sentinel occurs nowhere in the vital-status column the run aborts fatally
before any transformation and produces no output; if the alive sentinel does
occur, the run completes with the full pipeline output, and the absence of
the deceased sentinel only sets the warning flag. -/
theorem sentinel_validation (cfg : Config) (rows : List Row) :
    ((∀ r ∈ rows, r.vitalStatus ≠ cfg.alive) →
      runMain false cfg rows = RunResult.fatalAliveAbsent) ∧
    ((∃ r ∈ rows, r.vitalStatus = cfg.alive) →
      runMain false cfg rows =
        RunResult.success (rows.all fun r => r.vitalStatus ≠ cfg.deceased)
          (processRows cfg rows)) := by
  constructor
  · intro h
    have hall : (rows.all fun r => r.vitalStatus ≠ cfg.alive) = true := by
      simpa only [List.all_eq_true, decide_eq_true_eq] using h
    simp only [runMain, hall]
    simp
  · intro h
    have hall : ¬ (rows.all fun r => r.vitalStatus ≠ cfg.alive) = true := by
      simp only [List.all_eq_true, decide_eq_true_eq]
      intro hforall
      obtain ⟨r, hr, he⟩ := h
      exact hforall r hr he
    simp only [runMain, hall]
    simp

/-- Claim C7, witness: a cohort whose only status is Unknown trips the fatal
alive-sentinel check, and the Scenario A cohort (alive present, deceased
absent) completes with the warning flag set. -/
theorem sentinel_validation_witness :
    runMain false defaultConfig [rowU] = RunResult.fatalAliveAbsent ∧
    runMain false defaultConfig [rowA] =
      RunResult.success ([rowA].all fun r => r.vitalStatus ≠
        defaultConfig.deceased) (processRows defaultConfig [rowA]) :=
  ⟨(sentinel_validation defaultConfig [rowU]).1 (by decide),
    (sentinel_validation defaultConfig [rowA]).2 ⟨rowA, by decide, by decide⟩⟩

/-- Claim C8: when the output path already exists, the run aborts with the
fatal output-path result, whatever the input rows and configuration: the
result does not depend on the input at all, so no row is processed and no
output is produced. -/
theorem outpath_exists_aborts (cfg : Config) (rows : List Row) :
    runMain true cfg rows = RunResult.fatalOutpathExists := rfl

/-- Claim C9: for every retained row whose status at study end matches
neither sentinel, the censor cell of its output record is that raw value
passed through unchanged, the record is present in the output, and the cell
equals no numeric censor value. -/
theorem censor_passthrough (cfg : Config) (rows : List Row) (a : AdjRow)
    (ha : a ∈ retainedRows cfg rows)
    (h1 : a.vitalEnd ≠ cfg.alive) (h2 : a.vitalEnd ≠ cfg.deceased) :
    (mkOutRow cfg a).censor = CensorVal.raw a.vitalEnd ∧
    mkOutRow cfg a ∈ processRows cfg rows ∧
    ∀ n : Nat, (mkOutRow cfg a).censor ≠ CensorVal.num n := by
  have hc : (mkOutRow cfg a).censor = CensorVal.raw a.vitalEnd := by
    simp [mkOutRow, censorOf, h1, h2]
  refine ⟨hc, ?_, ?_⟩
  · simp only [processRows]
    exact List.mem_map.mpr ⟨a, ha, rfl⟩
  · intro n
    rw [hc]
    simp

/-- Claim C9, witness at a row with status Unknown. -/
theorem censor_passthrough_witness :
    (mkOutRow defaultConfig adjU).censor = CensorVal.raw adjU.vitalEnd ∧
    mkOutRow defaultConfig adjU ∈ processRows defaultConfig [rowU] ∧
    ∀ n : Nat, (mkOutRow defaultConfig adjU).censor ≠ CensorVal.num n :=
  censor_passthrough defaultConfig [rowU] adjU (by decide) (by decide)
    (by decide)

/-- Claim C10: the study ids of the output rows form a subsequence of the
study ids of the input rows: both filters are stable and no stage reorders,
so retained rows appear in the output in their input order. -/
theorem output_preserves_input_order (cfg : Config) (rows : List Row) :
    ((processRows cfg rows).map OutRow.studyid).Sublist
      (rows.map Row.studyid) := by
  have h1 : (processRows cfg rows).map OutRow.studyid
      = (retainedRows cfg rows).map fun a => a.row.studyid := by
    simp only [processRows, List.map_map]
    rfl
  have h2 : ((retainedRows cfg rows).map fun a => a.row.studyid).Sublist
      (((dropUnparseable rows).map (adjustRow cfg)).map
        fun a => a.row.studyid) := by
    simp only [retainedRows]
    exact (List.filter_sublist _).map _
  have h3 : (((dropUnparseable rows).map (adjustRow cfg)).map
        fun a => a.row.studyid)
      = (dropUnparseable rows).map fun p => p.row.studyid := by
    simp only [List.map_map]
    rfl
  rw [h1]
  rw [h3] at h2
  exact h2.trans (dropUnparseable_ids_sublist rows)

end AnonymizeSurvival
